import Mathlib

/-!
Verification development for the FDC+ Serial Drive Server protocol engine
(fdc-sds-gui.cpp / fdc-sds-gui.h).  The definitions below are a shallow
embedding of the engine: the constants from fdc-sds-gui.h, the checksum
routine `calcChecksum`, the drive helper routines `enableDrive` and
`enableHead`, and the command dispatcher `readyReadSlot` with its READ /
WRIT / STAT branches.  Machine integers are modelled as `Nat` with explicit
reduction modulo 2^8 / 2^16 where the C++ types (quint8 / quint16) wrap.
Arrays indexed by a drive number are modelled as total functions
`Nat → _`; indices 0..MAX_DRIVE-1 are the real per-drive arrays of the
C++ object, while larger indices stand for the adjacent out-of-bounds
memory that the C++ code can touch when an invalid drive number slips past
a guard.  The serial transport is modelled by explicit inputs (the bytes
received for the command buffer and for the WRIT track-data wait) and an
explicit output: the list of `writeSerialPort` calls, each a byte list.
UI-only effects (displayError, displayDash, updateIndicators, counters)
have no semantic content and are omitted.  Storage seek/write are modelled
as succeeding (no I/O fault), so the WRITE_ERR branches of WRIT are not
reachable in the model; no property below concerns them.
-/

/-- Constant MAX_DRIVE from fdc-sds-gui.h. -/
def MAX_DRIVE : Nat := 4

/-- Constant CMD_LEN from fdc-sds-gui.h: command length without checksum bytes. -/
def CMD_LEN : Nat := 8

/-- Constant CRC_LEN from fdc-sds-gui.h: length of the trailing checksum. -/
def CRC_LEN : Nat := 2

/-- Constant CMDBUF_SIZE from fdc-sds-gui.h. -/
def CMDBUF_SIZE : Nat := CMD_LEN + CRC_LEN

/-- Constant TRKBUF_SIZE from fdc-sds-gui.h: maximum valid track length. -/
def TRKBUF_SIZE : Nat := 137 * 32

/-- Response code STAT_OK. -/
def STAT_OK : Nat := 0x0000

/-- Response code STAT_NOT_READY. -/
def STAT_NOT_READY : Nat := 0x0001

/-- Response code STAT_CHECKSUM_ERR. -/
def STAT_CHECKSUM_ERR : Nat := 0x0002

/-- Response code STAT_WRITE_ERR. -/
def STAT_WRITE_ERR : Nat := 0x0003

/-- Embedding of FDCDialog::calcChecksum: a quint16 accumulator summed over
the first `length` bytes of `data`, wrapping modulo 2^16 at each addition. -/
def calcChecksum (data : List Nat) (length : Nat) : Nat :=
  (data.take length).foldl (fun checksum d => (checksum + d) % 65536) 0

/-- Byte `i` of a received buffer.  The C++ buffers are quint8 arrays, so
every entry is reduced modulo 256. -/
def getByte (l : List Nat) (i : Nat) : Nat := l.getD i 0 % 256

/-- Little-endian 16-bit word at offset `i` of a received buffer (the layout
of the TCOMMAND union: param1 at bytes 4-5, param2 at bytes 6-7, checksum at
bytes 8-9). -/
def getWord (l : List Nat) (i : Nat) : Nat := getByte l i + 256 * getByte l (i + 1)

/-- Little-endian byte pair of a 16-bit word, as stored back into the
TCOMMAND union when a response field is written. -/
def u16le (w : Nat) : List Nat := [w % 256, w / 256 % 256]

/-- ASCII bytes of the command tag "STAT". -/
def tagSTAT : List Nat := [83, 84, 65, 84]

/-- ASCII bytes of the command tag "READ". -/
def tagREAD : List Nat := [82, 69, 65, 68]

/-- ASCII bytes of the command tag "WRIT". -/
def tagWRIT : List Nat := [87, 82, 73, 84]

/-- ASCII bytes of the response tag "WSTA". -/
def tagWSTA : List Nat := [87, 83, 84, 65]

/-- Ten response bytes as written by writeSerialPort(cmdBuf.asBytes,
CMDBUF_SIZE): the 4-byte tag, rcode and rdata little-endian, and the
checksum recomputed over the first CMD_LEN bytes (the cmdBuf.checksum =
calcChecksum(cmdBuf.asBytes, CMD_LEN) assignments). -/
def encodeFrame (tag : List Nat) (rcode rdata : Nat) : List Nat :=
  tag ++ u16le rcode ++ u16le rdata
    ++ u16le (calcChecksum (tag ++ u16le rcode ++ u16le rdata) CMD_LEN)

/-- Validity of a received command frame's checksum: the comparison
`calcChecksum(cmdBuf.asBytes, CMD_LEN) != cmdBuf.checksum` at the top of
readyReadSlot.  In the source this comparison only selects an error display
(there is no early return), so `readyReadSlot` below does not consult it. -/
def checksumValid (cmd : List Nat) : Bool :=
  calcChecksum (cmd.map (fun b => b % 256)) CMD_LEN == getWord cmd 8

/-- Per-drive state of the FDCDialog object: the maxTrack, curTrack,
headStatus and enableStatus arrays, the driveFile open flags, and the byte
contents of each backing image file.  Indices below MAX_DRIVE are the real
drives; larger indices model the out-of-bounds memory adjacent to the
fixed-size C++ arrays. -/
structure DriveState where
  maxTrack : Nat → Nat
  curTrack : Nat → Nat
  headStatus : Nat → Nat
  enableStatus : Nat → Bool
  mounted : Nat → Bool
  image : Nat → List Nat

/-- Embedding of FDCDialog::enableDrive: clear enableStatus for drives
0..MAX_DRIVE-1, then set driveNum when driveNum < MAX_DRIVE. -/
def enableDrive (enableStatus : Nat → Bool) (driveNum : Nat) : Nat → Bool :=
  let cleared : Nat → Bool := fun drive =>
    if drive < MAX_DRIVE then false else enableStatus drive
  if driveNum < MAX_DRIVE then Function.update cleared driveNum true else cleared

/-- Embedding of FDCDialog::enableHead: clear headStatus for drives
0..MAX_DRIVE-1, then set driveNum when driveNum < MAX_DRIVE.  headStatus is
a quint8, so it is modelled as Nat with false = 0 and true = 1. -/
def enableHead (headStatus : Nat → Nat) (driveNum : Nat) : Nat → Nat :=
  let cleared : Nat → Nat := fun drive =>
    if drive < MAX_DRIVE then 0 else headStatus drive
  if driveNum < MAX_DRIVE then Function.update cleared driveNum 1 else cleared

/-- Effect of QFile::seek(off) followed by QFile::write(data, len) on the
byte contents of an image file: bytes [off, off+len) are overwritten by the
data, the file grows when the write extends past the old end, and all other
bytes keep their values. -/
def storeBytes (img : List Nat) (off : Nat) (data : List Nat) : List Nat :=
  (List.range (max img.length (off + data.length))).map fun i =>
    if off ≤ i ∧ i < off + data.length then data.getD (i - off) 0 else img.getD i 0

/-- Comparison of the received track-data checksum, lines 538-539 of
fdc-sds-gui.cpp: the low byte of calcChecksum(trkBuf, trackLen) must equal
trkBuf[trackLen] and the high byte trkBuf[trackLen+1]. -/
def blockChecksumOk (block : List Nat) (trackLen : Nat) : Bool :=
  (calcChecksum block trackLen &&& 0x00ff == block.getD trackLen 0)
    && ((calcChecksum block trackLen >>> 8) &&& 0x00ff == block.getD (trackLen + 1) 0)

/-- Mount bitmask computed for the STAT response, lines 590-595: rdata
starts at 0 and for each drive i < MAX_DRIVE with an open image file the
bit (1 << i) is ORed in. -/
def mountMask (mounted : Nat → Bool) : Nat :=
  (List.range MAX_DRIVE).foldl
    (fun rdata i => if mounted i then rdata ||| (1 <<< i) else rdata) 0

/-- READ branch of FDCDialog::readyReadSlot (lines 424-480).  Returns the
state after the command and the list of writeSerialPort calls (each one a
byte list).  The displayDash/displayError calls and the seek-position check
are display only and carry no state. -/
def readHandler (s : DriveState) (param1 param2 : Nat) :
    DriveState × List (List Nat) :=
  let driveNum := param1 >>> 12
  -- Ignore invalid drive numbers
  if driveNum > MAX_DRIVE then (s, [])
  else
    let s := { s with enableStatus := enableDrive s.enableStatus driveNum,
                      headStatus := enableHead s.headStatus driveNum }
    -- If drive not mounted, ignore
    if ! s.mounted driveNum then (s, [])
    else
      -- Track in lower 12 bits
      let s := { s with curTrack := Function.update s.curTrack driveNum (param1 &&& 0x0fff) }
      let trackLen := param2
      -- If the requested track length is too long, ignore
      if trackLen > TRKBUF_SIZE then (s, [])
      else if s.curTrack driveNum > s.maxTrack driveNum then (s, [])
      else
        let data := ((s.image driveNum).drop (s.curTrack driveNum * trackLen)).take trackLen
        -- Ignore reads past end of file (short read)
        if data.length ≠ trackLen then (s, [])
        else
          let checksum := calcChecksum data trackLen
          (s, [data ++ [checksum &&& 0x00ff, (checksum >>> 8) &&& 0x00ff]])

/-- WRIT branch of FDCDialog::readyReadSlot (lines 483-564).  `trkData` is
the byte sequence the transport delivers during the track-data wait; the
readSerialPort call receives at most trackLen + CRC_LEN of them, and the
received count is compared against trackLen + CRC_LEN exactly as in the
source.  Storage seek and write are modelled as succeeding. -/
def writHandler (s : DriveState) (param1 param2 : Nat) (trkData : List Nat) :
    DriveState × List (List Nat) :=
  let driveNum := param1 >>> 12
  -- Ignore invalid drive numbers
  if driveNum > MAX_DRIVE then (s, [])
  else
    let s := { s with curTrack := Function.update s.curTrack driveNum (param1 &&& 0x0fff) }
    let trackLen := param2
    let s := { s with enableStatus := enableDrive s.enableStatus driveNum,
                      headStatus := enableHead s.headStatus driveNum }
    -- If drive not mounted: rcode NOT_READY, else OK
    let rcode := if ! s.mounted driveNum then STAT_NOT_READY else STAT_OK
    -- If the requested track length is too long: rcode NOT_READY
    let rcode := if trackLen > TRKBUF_SIZE then STAT_NOT_READY else rcode
    if s.curTrack driveNum > s.maxTrack driveNum then (s, [])
    else if rcode == STAT_OK then
      let ack := encodeFrame tagWRIT rcode param2
      let block := (trkData.take (trackLen + CRC_LEN)).map (fun b => b % 256)
      let bytesRead := block.length
      if bytesRead ≠ trackLen + CRC_LEN then
        (s, [ack, encodeFrame tagWSTA STAT_CHECKSUM_ERR param2])
      else if blockChecksumOk block trackLen then
        let img := storeBytes (s.image driveNum) (s.curTrack driveNum * trackLen) (block.take trackLen)
        let s := { s with image := Function.update s.image driveNum img }
        (s, [ack, encodeFrame tagWSTA STAT_OK param2])
      else
        (s, [ack, encodeFrame tagWSTA STAT_CHECKSUM_ERR param2])
    else
      (s, [encodeFrame tagWRIT rcode param2])

/-- STAT branch of FDCDialog::readyReadSlot (lines 567-600): deselect all
drives and unload all heads via enableDrive(0xff)/enableHead(0xff), then,
when param1's low byte addresses a real drive, select it, set its head
status from param1's high byte and its current track from param2; respond
with rcode OK and the mount bitmask. -/
def statHandler (s : DriveState) (param1 param2 : Nat) :
    DriveState × List (List Nat) :=
  let s := { s with enableStatus := enableDrive s.enableStatus 0xff,
                    headStatus := enableHead s.headStatus 0xff }
  let driveNum := param1 &&& 0x00ff
  let s :=
    if driveNum < MAX_DRIVE then
      { s with enableStatus := Function.update s.enableStatus driveNum true,
               headStatus := Function.update s.headStatus driveNum ((param1 &&& 0xff00) >>> 8),
               curTrack := Function.update s.curTrack driveNum param2 }
    else s
  (s, [encodeFrame tagSTAT STAT_OK (mountMask s.mounted)])

/-- Embedding of FDCDialog::readyReadSlot: read up to CMDBUF_SIZE command
bytes (return silently on a partial buffer), compute the command checksum
(which in the source only selects an error display and never suppresses
dispatch), and dispatch on the 4-byte tag to the READ / WRIT / STAT
branches; unknown tags are logged with no response. -/
def readyReadSlot (s : DriveState) (cmdRecv trkData : List Nat) :
    DriveState × List (List Nat) :=
  let bytesRead := min cmdRecv.length CMDBUF_SIZE
  if bytesRead < CMDBUF_SIZE then (s, [])
  else
    let command := (cmdRecv.take 4).map (fun b => b % 256)
    let param1 := getWord cmdRecv 4
    let param2 := getWord cmdRecv 6
    if command = tagREAD then readHandler s param1 param2
    else if command = tagWRIT then writHandler s param1 param2 trkData
    else if command = tagSTAT then statHandler s param1 param2
    else (s, [])

/-- Geometry rule of FDCDialog::loadButtonSlot (lines 330-339): maxTrack
derived from the size of the opened image file. -/
def loadMaxTrack (filesize : Nat) : Nat :=
  if filesize < 200000 then 34
  else if filesize < 500000 then 76
  else 2047

/-- Mount effect of FDCDialog::loadButtonSlot on a successfully opened
image file of `filesize` bytes with byte contents `contents`: the drive's
file becomes open, its image is the file contents, and maxTrack is set by
the geometry rule. -/
def loadDrive (s : DriveState) (drive filesize : Nat) (contents : List Nat) : DriveState :=
  { s with mounted := Function.update s.mounted drive true,
           image := Function.update s.image drive contents,
           maxTrack := Function.update s.maxTrack drive (loadMaxTrack filesize) }

/-- Drive state at construction (lines 202-207): all tracks 0, nothing
selected, no head loaded, nothing mounted.  maxTrack is left 0 as after
unloadButtonSlot. -/
def state0 : DriveState :=
  { maxTrack := fun _ => 0, curTrack := fun _ => 0, headStatus := fun _ => 0,
    enableStatus := fun _ => false, mounted := fun _ => false, image := fun _ => [] }

/-- Sample state with drive 0 mounted (maxTrack 76), selected, at track 0. -/
def stateSel : DriveState :=
  { maxTrack := fun _ => 76, curTrack := fun _ => 0, headStatus := fun _ => 0,
    enableStatus := fun d => d == 0, mounted := fun d => d == 0, image := fun _ => [] }

/-- STAT command frame with param1 low byte 0xff and an incorrect trailing
checksum (the correct checksum of its first 8 bytes is 571, the field holds
0). -/
def badStatCmd : List Nat := tagSTAT ++ [0xff, 0x00, 0x00, 0x00, 0x00, 0x00]

/-- Helper: bit i of the STAT mount bitmask equals drive i's mount flag,
for each of the four drives. -/
theorem mountMask_testBit (m : Nat → Bool) :
    (mountMask m).testBit 0 = m 0 ∧ (mountMask m).testBit 1 = m 1
      ∧ (mountMask m).testBit 2 = m 2 ∧ (mountMask m).testBit 3 = m 3 := by
  cases h0 : m 0 <;> cases h1 : m 1 <;> cases h2 : m 2 <;> cases h3 : m 3 <;>
    simp [mountMask, MAX_DRIVE, List.range_succ, h0, h1, h2, h3] <;> decide

/-- C8: for every STAT command and every mount combination, the response is
the single frame tagged STAT with rcode = STAT_OK and rdata = the mount
bitmask, whose bit i (bit 0 = drive 0) is set iff drive i is mounted. -/
theorem stat_response_bitmask (s : DriveState) (p1 p2 : Nat) :
    (statHandler s p1 p2).2 = [encodeFrame tagSTAT STAT_OK (mountMask s.mounted)]
    ∧ ((mountMask s.mounted).testBit 0 = s.mounted 0
       ∧ (mountMask s.mounted).testBit 1 = s.mounted 1
       ∧ (mountMask s.mounted).testBit 2 = s.mounted 2
       ∧ (mountMask s.mounted).testBit 3 = s.mounted 3) := by
  constructor
  · by_cases h : (p1 &&& 0x00ff) < MAX_DRIVE <;> simp [statHandler, h]
  · exact mountMask_testBit s.mounted

/-- C4 counterexample: a STAT command with param1 low byte 0xff does change
a drive slot: with drive 0 selected beforehand, its selected flag is
cleared by the enableDrive(0xff) deselect-all. -/
theorem stat_sentinel_mutates_selected :
    stateSel.enableStatus 0 = true
    ∧ (statHandler stateSel 0xff 0).1.enableStatus 0 = false := by decide

/-- C4 (amended): a STAT command whose param1 low byte is 0xff clears every
drive's selected flag and head-loaded value, leaves every current-track
field unchanged, and still responds with rcode STAT_OK and rdata = the
correct mount bitmask. -/
theorem stat_sentinel_effects (s : DriveState) (p1 p2 : Nat)
    (h : p1 &&& 0x00ff = 0xff) :
    (statHandler s p1 p2).1.curTrack = s.curTrack
    ∧ (∀ d, d < MAX_DRIVE → (statHandler s p1 p2).1.enableStatus d = false)
    ∧ (∀ d, d < MAX_DRIVE → (statHandler s p1 p2).1.headStatus d = 0)
    ∧ (statHandler s p1 p2).2 = [encodeFrame tagSTAT STAT_OK (mountMask s.mounted)]
    ∧ ((mountMask s.mounted).testBit 0 = s.mounted 0
       ∧ (mountMask s.mounted).testBit 1 = s.mounted 1
       ∧ (mountMask s.mounted).testBit 2 = s.mounted 2
       ∧ (mountMask s.mounted).testBit 3 = s.mounted 3) := by
  have hlt : ¬ ((p1 &&& 0x00ff) < MAX_DRIVE) := by rw [h]; decide
  have h255 : ¬ ((0xff : Nat) < MAX_DRIVE) := by decide
  refine ⟨?_, ?_, ?_, ?_, mountMask_testBit s.mounted⟩
  · simp [statHandler, hlt]
  · intro d hd
    simp [statHandler, hlt, enableDrive, h255, hd]
  · intro d hd
    simp [statHandler, hlt, enableHead, h255, hd]
  · simp [statHandler, hlt]

/-- C4 witness: the amended statement instantiated at the sample state with
drive 0 mounted and selected. -/
theorem stat_sentinel_effects_witness :
    (0xff &&& 0x00ff = 0xff)
    ∧ ((statHandler stateSel 0xff 7).1.curTrack = stateSel.curTrack
       ∧ (∀ d, d < MAX_DRIVE → (statHandler stateSel 0xff 7).1.enableStatus d = false)
       ∧ (∀ d, d < MAX_DRIVE → (statHandler stateSel 0xff 7).1.headStatus d = 0)
       ∧ (statHandler stateSel 0xff 7).2
           = [encodeFrame tagSTAT STAT_OK (mountMask stateSel.mounted)]
       ∧ ((mountMask stateSel.mounted).testBit 0 = stateSel.mounted 0
          ∧ (mountMask stateSel.mounted).testBit 1 = stateSel.mounted 1
          ∧ (mountMask stateSel.mounted).testBit 2 = stateSel.mounted 2
          ∧ (mountMask stateSel.mounted).testBit 3 = stateSel.mounted 3)) :=
  ⟨by decide, stat_sentinel_effects stateSel 0xff 7 (by decide)⟩

/-- C9: the mount operation derives the drive's maxTrack from the image
size: below 200000 bytes maxTrack 34, from 200000 up to below 500000
maxTrack 76, from 500000 on maxTrack 2047. -/
theorem load_maxtrack_rule (s : DriveState) (drive filesize : Nat) (contents : List Nat) :
    (filesize < 200000 → (loadDrive s drive filesize contents).maxTrack drive = 34)
    ∧ (200000 ≤ filesize → filesize < 500000 →
        (loadDrive s drive filesize contents).maxTrack drive = 76)
    ∧ (500000 ≤ filesize → (loadDrive s drive filesize contents).maxTrack drive = 2047) := by
  have hup : (loadDrive s drive filesize contents).maxTrack drive = loadMaxTrack filesize := by
    simp [loadDrive]
  refine ⟨fun h => ?_, fun h1 h2 => ?_, fun h => ?_⟩ <;> rw [hup] <;> unfold loadMaxTrack
  · rw [if_pos h]
  · rw [if_neg (by omega), if_pos h2]
  · rw [if_neg (by omega), if_neg (by omega)]

/-- C9 witness: image sizes 150000, 300000 and 900000 give maxTrack 34, 76
and 2047. -/
theorem load_maxtrack_rule_witness :
    (150000 < 200000 ∧ (loadDrive state0 0 150000 []).maxTrack 0 = 34)
    ∧ (200000 ≤ 300000 ∧ 300000 < 500000 ∧ (loadDrive state0 0 300000 []).maxTrack 0 = 76)
    ∧ (500000 ≤ 900000 ∧ (loadDrive state0 0 900000 []).maxTrack 0 = 2047) :=
  ⟨⟨by decide, (load_maxtrack_rule state0 0 150000 []).1 (by decide)⟩,
   ⟨by decide, by decide, (load_maxtrack_rule state0 0 300000 []).2.1 (by decide) (by decide)⟩,
   ⟨by decide, (load_maxtrack_rule state0 0 900000 []).2.2 (by decide)⟩⟩

/-- C1: a command frame whose checksum field does not match the sum of its
first 8 bytes is still dispatched — readyReadSlot only displays an error on
a checksum mismatch and never returns early — so the engine writes the full
STAT response for a checksum-invalid STAT frame instead of dropping it. -/
theorem checksum_mismatch_still_dispatched :
    checksumValid badStatCmd = false
    ∧ (readyReadSlot state0 badStatCmd []).2 = [encodeFrame tagSTAT STAT_OK 0] := by decide

/-- C2: the drive-number guard uses driveNum > MAX_DRIVE, so the boundary
value driveNum = MAX_DRIVE = 4 is not rejected: a READ for drive 4 is
dispatched and mutates drive-slot state (it clears drive 0's selected
flag), and a WRIT for drive 4 writes the requested track into the
out-of-bounds slot at index MAX_DRIVE. -/
theorem drive_boundary_not_rejected :
    (0x4100 >>> 12 = MAX_DRIVE ∧ ¬ (0x4100 >>> 12 > MAX_DRIVE))
    ∧ (stateSel.enableStatus 0 = true
       ∧ (readHandler stateSel 0x4100 0).1.enableStatus 0 = false)
    ∧ ((writHandler stateSel 0x4100 0 []).1.curTrack MAX_DRIVE = 0x100
       ∧ stateSel.curTrack MAX_DRIVE = 0) := by decide

/-- C3 counterexample: a WRIT to an unmounted drive produces exactly one
response frame, but that closing frame is tagged WRIT, not WSTA. -/
theorem writ_unmounted_tag_not_wsta :
    (writHandler state0 0 128 []).2 = [encodeFrame tagWRIT STAT_NOT_READY 128]
    ∧ (encodeFrame tagWRIT STAT_NOT_READY 128).take 4 ≠ tagWSTA := by decide

/-- C3 (amended): for a WRIT on a valid drive with the requested track
within range, (a) whenever the acknowledgement (rcode OK) path is reached —
the drive is mounted and trackLen is legal — the transaction ends with a
closing frame tagged WSTA carrying the final response code, preceded only
by the WRIT acknowledgement carrying STAT_OK; and (b) when the drive is
unmounted the complete response is exactly one closing frame tagged WRIT
(not WSTA) carrying STAT_NOT_READY, with no preceding acknowledgement frame
and no track-data wait (the result is the same for every track-data
input). -/
theorem writ_closing_frame (s : DriveState) (p1 p2 : Nat) (trkData : List Nat)
    (hd : p1 >>> 12 < MAX_DRIVE)
    (ht : p1 &&& 0x0fff ≤ s.maxTrack (p1 >>> 12)) :
    (s.mounted (p1 >>> 12) = true → p2 ≤ TRKBUF_SIZE →
      ∃ rcode, (writHandler s p1 p2 trkData).2
        = [encodeFrame tagWRIT STAT_OK p2, encodeFrame tagWSTA rcode p2])
    ∧ (s.mounted (p1 >>> 12) = false →
      (writHandler s p1 p2 trkData).2 = [encodeFrame tagWRIT STAT_NOT_READY p2]) := by
  have hg : ¬ (p1 >>> 12 > MAX_DRIVE) := by omega
  have hr : ¬ (p1 &&& 0x0fff > s.maxTrack (p1 >>> 12)) := by omega
  constructor
  · intro hm hl
    have hl2 : ¬ (p2 > TRKBUF_SIZE) := by omega
    by_cases hlen : trkData.length < p2 + CRC_LEN
    · exact ⟨STAT_CHECKSUM_ERR,
        by simp [writHandler, hg, hm, hr, hl2, hlen, Function.update_same, STAT_OK]⟩
    · by_cases hck : blockChecksumOk (List.take (p2 + CRC_LEN)
          (trkData.map (fun b => b % 256))) p2 = true
      · exact ⟨STAT_OK,
          by simp [writHandler, hg, hm, hr, hl2, hlen, hck, Function.update_same, STAT_OK]⟩
      · exact ⟨STAT_CHECKSUM_ERR,
          by simp [writHandler, hg, hm, hr, hl2, hlen, hck, Function.update_same, STAT_OK]⟩
  · intro hm
    simp [writHandler, hg, hm, hr, Function.update_same, STAT_NOT_READY, STAT_OK]

/-- C3 witness: both conjuncts applied at concrete inputs — a mounted drive
0 with a corrupted 2-byte track block, whose transaction ends with a
WSTA-tagged closing frame, and the empty state's unmounted drive 0, which
answers with the single WRIT-tagged NOT_READY frame while track-data bytes
are available but never waited for. -/
theorem writ_closing_frame_witness :
    ((0 >>> 12 < MAX_DRIVE)
     ∧ 0 &&& 0x0fff ≤ stateSel.maxTrack (0 >>> 12)
     ∧ stateSel.mounted (0 >>> 12) = true
     ∧ 2 ≤ TRKBUF_SIZE
     ∧ (∃ rcode, (writHandler stateSel 0 2 [1, 2, 9, 9]).2
          = [encodeFrame tagWRIT STAT_OK 2, encodeFrame tagWSTA rcode 2]))
    ∧ ((0 >>> 12 < MAX_DRIVE)
       ∧ 0 &&& 0x0fff ≤ state0.maxTrack (0 >>> 12)
       ∧ state0.mounted (0 >>> 12) = false
       ∧ (writHandler state0 0 128 [5, 5]).2 = [encodeFrame tagWRIT STAT_NOT_READY 128]) :=
  ⟨⟨by decide, by decide, by decide, by decide,
    (writ_closing_frame stateSel 0 2 [1, 2, 9, 9] (by decide) (by decide)).1
      (by decide) (by decide)⟩,
   ⟨by decide, by decide, by decide,
    (writ_closing_frame state0 0 128 [5, 5] (by decide) (by decide)).2 (by decide)⟩⟩

/-- C5 counterexample: a READ with trackLen 4385 to a mounted drive writes
zero bytes to the transport but does mutate the DriveTable: drive 0's
current track changes from 0 to the requested track 5. -/
theorem read_oversize_mutates :
    (readHandler stateSel 5 4385).2 = []
    ∧ (readHandler stateSel 5 4385).1.curTrack 0 = 5
    ∧ stateSel.curTrack 0 = 0 := by decide

/-- C5 (amended): a READ with trackLen > 4384 addressed to a valid mounted
drive writes zero bytes to the transport, but mutates the DriveTable before
the length check: the drive's selected and head-loaded flags are set (all
other drives' cleared) and its current track becomes the requested track;
maxTrack, mount state and image contents are unchanged. -/
theorem read_oversize_effects (s : DriveState) (p1 p2 : Nat)
    (hd : p1 >>> 12 < MAX_DRIVE)
    (hm : s.mounted (p1 >>> 12) = true)
    (hl : p2 > TRKBUF_SIZE) :
    (readHandler s p1 p2).2 = []
    ∧ (readHandler s p1 p2).1.curTrack
        = Function.update s.curTrack (p1 >>> 12) (p1 &&& 0x0fff)
    ∧ (readHandler s p1 p2).1.enableStatus = enableDrive s.enableStatus (p1 >>> 12)
    ∧ (readHandler s p1 p2).1.headStatus = enableHead s.headStatus (p1 >>> 12)
    ∧ (readHandler s p1 p2).1.maxTrack = s.maxTrack
    ∧ (readHandler s p1 p2).1.mounted = s.mounted
    ∧ (readHandler s p1 p2).1.image = s.image := by
  have hg : ¬ (p1 >>> 12 > MAX_DRIVE) := by omega
  simp [readHandler, hg, hm, hl]

/-- C5 witness: the amended statement instantiated at the sample mounted
state, requested track 5, trackLen 4385. -/
theorem read_oversize_effects_witness :
    (5 >>> 12 < MAX_DRIVE)
    ∧ stateSel.mounted (5 >>> 12) = true
    ∧ 4385 > TRKBUF_SIZE
    ∧ ((readHandler stateSel 5 4385).2 = []
       ∧ (readHandler stateSel 5 4385).1.curTrack
           = Function.update stateSel.curTrack (5 >>> 12) (5 &&& 0x0fff)
       ∧ (readHandler stateSel 5 4385).1.enableStatus
           = enableDrive stateSel.enableStatus (5 >>> 12)
       ∧ (readHandler stateSel 5 4385).1.headStatus
           = enableHead stateSel.headStatus (5 >>> 12)
       ∧ (readHandler stateSel 5 4385).1.maxTrack = stateSel.maxTrack
       ∧ (readHandler stateSel 5 4385).1.mounted = stateSel.mounted
       ∧ (readHandler stateSel 5 4385).1.image = stateSel.image) :=
  ⟨by decide, by decide, by decide,
   read_oversize_effects stateSel 5 4385 (by decide) (by decide) (by decide)⟩

/-- C6: a WRIT to a mounted valid drive with in-range track and legal
trackLen, whose full track block arrives with a trailing checksum that does
not match the 16-bit sum of the payload, responds with exactly the WRIT
acknowledgement frame carrying STAT_OK followed by the closing WSTA frame
carrying STAT_CHECKSUM_ERR, and leaves every backing image unchanged. -/
theorem writ_checksum_err_response (s : DriveState) (p1 p2 : Nat) (trkData : List Nat)
    (hd : p1 >>> 12 < MAX_DRIVE)
    (hm : s.mounted (p1 >>> 12) = true)
    (ht : p1 &&& 0x0fff ≤ s.maxTrack (p1 >>> 12))
    (hl : p2 ≤ TRKBUF_SIZE)
    (hlen : trkData.length = p2 + CRC_LEN)
    (hck : blockChecksumOk ((trkData.take (p2 + CRC_LEN)).map (fun b => b % 256)) p2
            = false) :
    (writHandler s p1 p2 trkData).2
      = [encodeFrame tagWRIT STAT_OK p2, encodeFrame tagWSTA STAT_CHECKSUM_ERR p2]
    ∧ (writHandler s p1 p2 trkData).1.image = s.image := by
  have hg : ¬ (p1 >>> 12 > MAX_DRIVE) := by omega
  have hr : ¬ (p1 &&& 0x0fff > s.maxTrack (p1 >>> 12)) := by omega
  have hl2 : ¬ (p2 > TRKBUF_SIZE) := by omega
  have hnlt : ¬ (trkData.length < p2 + CRC_LEN) := by omega
  rw [List.map_take] at hck
  simp [writHandler, hg, hm, hr, hl2, hnlt, hck, Function.update_same, STAT_OK]

/-- C6 witness: drive 0 mounted, track 0, trackLen 2, payload [1, 2] whose
checksum is 3 but whose trailing bytes are [9, 9]. -/
theorem writ_checksum_err_response_witness :
    (0 >>> 12 < MAX_DRIVE)
    ∧ stateSel.mounted (0 >>> 12) = true
    ∧ 0 &&& 0x0fff ≤ stateSel.maxTrack (0 >>> 12)
    ∧ 2 ≤ TRKBUF_SIZE
    ∧ ([1, 2, 9, 9] : List Nat).length = 2 + CRC_LEN
    ∧ blockChecksumOk ((([1, 2, 9, 9] : List Nat).take (2 + CRC_LEN)).map (fun b => b % 256)) 2
        = false
    ∧ ((writHandler stateSel 0 2 [1, 2, 9, 9]).2
        = [encodeFrame tagWRIT STAT_OK 2, encodeFrame tagWSTA STAT_CHECKSUM_ERR 2]
       ∧ (writHandler stateSel 0 2 [1, 2, 9, 9]).1.image = stateSel.image) :=
  ⟨by decide, by decide, by decide, by decide, by decide, by decide,
   writ_checksum_err_response stateSel 0 2 [1, 2, 9, 9]
     (by decide) (by decide) (by decide) (by decide) (by decide) (by decide)⟩

/-- C7: a WRIT whose requested track exceeds the addressed drive's maxTrack
is aborted with no response bytes at all — no acknowledgement and no WSTA
closing frame — and no track-data wait (the result is the same for every
track-data input). -/
theorem writ_track_range_abort (s : DriveState) (p1 p2 : Nat) (trkData : List Nat)
    (hd : p1 >>> 12 < MAX_DRIVE)
    (ht : p1 &&& 0x0fff > s.maxTrack (p1 >>> 12)) :
    (writHandler s p1 p2 trkData).2 = [] := by
  have hg : ¬ (p1 >>> 12 > MAX_DRIVE) := by omega
  simp [writHandler, hg, Function.update_same, ht]

/-- C7 witness: drive 0 with maxTrack 76, requested track 80, trackLen 137,
with track-data bytes available that are never waited for. -/
theorem writ_track_range_abort_witness :
    (80 >>> 12 < MAX_DRIVE)
    ∧ 80 &&& 0x0fff > stateSel.maxTrack (80 >>> 12)
    ∧ (writHandler stateSel 80 137 [1, 2, 3]).2 = [] :=
  ⟨by decide, by decide,
   writ_track_range_abort stateSel 80 137 [1, 2, 3] (by decide) (by decide)⟩

/-- C10: a WRIT whose drive number passes the index guard assigns the
requested track (the low 12 bits of param1) to that drive's current-track
field before the mount, track-length and track-range checks, so a WRIT
rejected for an unmounted drive, an oversized trackLen or an out-of-range
track still leaves the slot's current track equal to the requested track. -/
theorem writ_reject_sets_curtrack (s : DriveState) (p1 p2 : Nat) (trkData : List Nat)
    (hd : p1 >>> 12 ≤ MAX_DRIVE)
    (hrej : s.mounted (p1 >>> 12) = false ∨ p2 > TRKBUF_SIZE
            ∨ p1 &&& 0x0fff > s.maxTrack (p1 >>> 12)) :
    (writHandler s p1 p2 trkData).1.curTrack (p1 >>> 12) = p1 &&& 0x0fff := by
  have hg : ¬ (p1 >>> 12 > MAX_DRIVE) := by omega
  by_cases hr : p1 &&& 0x0fff > s.maxTrack (p1 >>> 12)
  · simp [writHandler, hg, hr, Function.update_same]
  · rcases hrej with hm | hl | h3
    · simp [writHandler, hg, hr, hm, Function.update_same, STAT_NOT_READY, STAT_OK]
    · simp [writHandler, hg, hr, hl, Function.update_same, STAT_NOT_READY, STAT_OK]
    · exact absurd h3 hr

/-- C10 witness: the empty state (drive 0 unmounted, maxTrack 0), requested
track 7, trackLen 100: the WRIT is rejected yet curTrack 0 becomes 7. -/
theorem writ_reject_sets_curtrack_witness :
    (7 >>> 12 ≤ MAX_DRIVE)
    ∧ (state0.mounted (7 >>> 12) = false ∨ 100 > TRKBUF_SIZE
       ∨ 7 &&& 0x0fff > state0.maxTrack (7 >>> 12))
    ∧ (writHandler state0 7 100 []).1.curTrack (7 >>> 12) = 7 &&& 0x0fff :=
  ⟨by decide, Or.inl (by decide),
   writ_reject_sets_curtrack state0 7 100 [] (by decide) (Or.inl (by decide))⟩
